import Mathlib

/-!
Verification of the MQTT integration backend of the chirpstack-gateway-bridge
repository (file `internal/backend/.../gateway.go`, MQTT `Backend` type).

The Go code is shallowly embedded:

* topic strings are Lean `String`s; Go's `strings.HasSuffix` / `strings.Contains`
  are modelled over the underlying character lists;
* protobuf messages (`gw.DownlinkFrame`, `gw.GatewayConfiguration`,
  `gw.GatewayCommandExecRequest`, `gw.RawPacketForwarderCommand`) become
  structures carrying the fields the backend touches; nil-able pointer fields
  become `Option`; `bytes` fields become `List Nat`;
* the injected `unmarshal` codec functions (which return a Go `error`) become
  functions into `Option`;
* the backend's shared mutable state (`conn`, `gateways`, `closed`, the four
  registered handler funcs) becomes `BackendState`; handler registration is a
  `Bool` per handler (registered or not);
* stateful operations additionally return a trace of observable events
  (`Ev`): lock acquisitions/releases, broker subscribe/unsubscribe/publish
  calls, connect attempts, disconnects and fixed-backoff sleeps;
* the unbounded retry loops (`SetGatewaySubscription`, `onConnected`,
  `connectLoop`, `reconnectLoop`) are driven by a finite list of externally
  supplied outcomes (`List Bool`: does the next broker call succeed, resp.
  what does the next read of the `closed` flag observe).  An exhausted list
  means the loop is still running, which the result type records as `none`.
-/

namespace ChirpStackMqtt

/-! ## Go string primitives (`strings.HasSuffix`, `strings.Contains`) -/

/-- `strings.Contains` on character lists: `sub` occurs as a contiguous
substring of the second argument. -/
def containsSub (sub : List Char) : List Char → Bool
  | [] => sub.isEmpty
  | c :: t => sub.isPrefixOf (c :: t) || containsSub sub t

/-- Go `strings.Contains s sub`. -/
def goContains (s sub : String) : Bool :=
  containsSub sub.data s.data

/-- Go `strings.HasSuffix s suf`. -/
def goHasSuffix (s suf : String) : Bool :=
  suf.data.isSuffixOf s.data

/-! ## Wire messages (subset of the protobuf fields the backend touches) -/

/-- `gw.DownlinkTXInfo` (the backend only reads its `GatewayId`). -/
structure DownlinkTXInfo where
  gatewayId : List Nat
deriving Repr, DecidableEq

/-- `gw.DownlinkFrameItem`: one transmit item (payload + transmit parameters). -/
structure DownlinkFrameItem where
  phyPayload : List Nat
  txInfo : Option DownlinkTXInfo
deriving Repr, DecidableEq

/-- `gw.DownlinkFrame`: legacy top-level `PhyPayload`/`TxInfo`, the item list,
the owning gateway id and the correlation id. -/
structure DownlinkFrame where
  phyPayload : List Nat
  txInfo : Option DownlinkTXInfo
  items : List DownlinkFrameItem
  gatewayId : List Nat
  downlinkId : List Nat
deriving Repr, DecidableEq

/-- `gw.GatewayConfiguration` (fields the backend forwards). -/
structure GatewayConfiguration where
  gatewayId : List Nat
  version : String
deriving Repr, DecidableEq

/-- `gw.GatewayCommandExecRequest`. -/
structure GatewayCommandExecRequest where
  gatewayId : List Nat
  execId : List Nat
  command : String
deriving Repr, DecidableEq

/-- `gw.RawPacketForwarderCommand`. -/
structure RawPacketForwarderCommand where
  gatewayId : List Nat
  rawId : List Nat
  payload : List Nat
deriving Repr, DecidableEq

/-- Go getter chain `GetTxInfo().GetGatewayId()`: nil-safe access. -/
def getGatewayIdOpt : Option DownlinkTXInfo → List Nat
  | none => []
  | some ti => ti.gatewayId

/-! ## Backend state and codec -/

/-- The shared mutable fields of the Go `Backend` struct: the current
connection handle (identified by a number, replaced on each connect), the
gateway subscription registry, the `closed` flag, and whether each of the four
handler funcs is registered (non-nil). -/
structure BackendState where
  connId : Nat
  gateways : List Nat
  closed : Bool
  downlinkFrameFunc : Bool
  gatewayConfigurationFunc : Bool
  gatewayCommandExecRequestFunc : Bool
  rawPacketForwarderCommandFunc : Bool
deriving Repr, DecidableEq

/-- The injected `b.unmarshal` codec, one decoding function per message kind
(`nil` Go error becomes `some` decoded message, an error becomes `none`). -/
structure Codec where
  unmarshalDownlink : List Nat → Option DownlinkFrame
  unmarshalConfig : List Nat → Option GatewayConfiguration
  unmarshalExec : List Nat → Option GatewayCommandExecRequest
  unmarshalRaw : List Nat → Option RawPacketForwarderCommand

/-- The message handed to a registered handler func, tagged by kind. -/
inductive HandlerCall where
  | downlink (df : DownlinkFrame)
  | config (c : GatewayConfiguration)
  | exec (e : GatewayCommandExecRequest)
  | raw (r : RawPacketForwarderCommand)
deriving Repr, DecidableEq

/-! ## Topic classification (`Backend.handleCommand` decision chain) -/

/-- The kind an inbound command topic is classified as. -/
inductive CommandKind where
  | down
  | config
  | exec
  | raw
  | unknown
deriving Repr, DecidableEq

/-- First test of `handleCommand`:
`strings.HasSuffix(topic, "down") || strings.Contains(topic, "command=down")`. -/
def matchDown (t : String) : Bool :=
  goHasSuffix t "down" || goContains t "command=down"

/-- Second test of `handleCommand`. -/
def matchConfig (t : String) : Bool :=
  goHasSuffix t "config" || goContains t "command=config"

/-- Third test of `handleCommand`. -/
def matchExec (t : String) : Bool :=
  goHasSuffix t "exec" || goContains t "command=exec"

/-- Fourth test of `handleCommand`. -/
def matchRaw (t : String) : Bool :=
  goHasSuffix t "raw" || goContains t "command=raw"

/-- The classification implicit in `handleCommand`'s if/else-if chain,
tested in source order: down, config, exec, raw, otherwise unknown. -/
def classify (t : String) : CommandKind :=
  if matchDown t then CommandKind.down
  else if matchConfig t then CommandKind.config
  else if matchExec t then CommandKind.exec
  else if matchRaw t then CommandKind.raw
  else CommandKind.unknown

/-! ## Command dispatcher (`handleDownlinkFrame` etc., `handleCommand`) -/

/-- The backwards-compatibility block of `Backend.handleDownlinkFrame`:
`if len(Items) == 0 && (TxInfo != nil && len(PhyPayload) != 0)` then append the
single synthesized item and set `GatewayId` from `Items[0].GetTxInfo().GetGatewayId()`. -/
def normalizeDownlinkFrame (df : DownlinkFrame) : DownlinkFrame :=
  if df.items.isEmpty && (df.txInfo.isSome && !df.phyPayload.isEmpty) then
    let items := df.items ++ [{ phyPayload := df.phyPayload, txInfo := df.txInfo }]
    { df with
      items := items
      gatewayId :=
        match items with
        | [] => []
        | it :: _ => getGatewayIdOpt it.txInfo }
  else df

/-- `Backend.handleDownlinkFrame` after a successful decode: normalize the
legacy shape, then drop the frame when the item list is still empty. -/
def downlinkAfterDecode (df : DownlinkFrame) : Option DownlinkFrame :=
  let ndf := normalizeDownlinkFrame df
  if ndf.items.isEmpty then none else some ndf

/-- `Backend.handleDownlinkFrame`: decode, normalize, drop-if-empty, then call
the registered downlink handler if any.  The returned `Option HandlerCall` is
the handler invocation performed (`none` = no handler invoked). -/
def handleDownlinkFrame (codec : Codec) (st : BackendState) (payload : List Nat) :
    BackendState × Option HandlerCall :=
  match codec.unmarshalDownlink payload with
  | none => (st, none)
  | some df =>
    match downlinkAfterDecode df with
    | none => (st, none)
    | some ndf =>
      (st, if st.downlinkFrameFunc then some (HandlerCall.downlink ndf) else none)

/-- `Backend.handleGatewayConfiguration`. -/
def handleGatewayConfiguration (codec : Codec) (st : BackendState) (payload : List Nat) :
    BackendState × Option HandlerCall :=
  match codec.unmarshalConfig payload with
  | none => (st, none)
  | some cfg =>
    (st, if st.gatewayConfigurationFunc then some (HandlerCall.config cfg) else none)

/-- `Backend.handleGatewayCommandExecRequest`. -/
def handleGatewayCommandExecRequest (codec : Codec) (st : BackendState) (payload : List Nat) :
    BackendState × Option HandlerCall :=
  match codec.unmarshalExec payload with
  | none => (st, none)
  | some req =>
    (st, if st.gatewayCommandExecRequestFunc then some (HandlerCall.exec req) else none)

/-- `Backend.handleRawPacketForwarderCommand`. -/
def handleRawPacketForwarderCommand (codec : Codec) (st : BackendState) (payload : List Nat) :
    BackendState × Option HandlerCall :=
  match codec.unmarshalRaw payload with
  | none => (st, none)
  | some cmd =>
    (st, if st.rawPacketForwarderCommandFunc then some (HandlerCall.raw cmd) else none)

/-- `Backend.handleCommand`: the inbound command dispatcher.  The if/else-if
chain mirrors the source; the final else branch only logs (unknown topic:
message dropped, no handler invoked, state untouched). -/
def handleCommand (codec : Codec) (st : BackendState) (topic : String) (payload : List Nat) :
    BackendState × Option HandlerCall :=
  if matchDown topic then handleDownlinkFrame codec st payload
  else if matchConfig topic then handleGatewayConfiguration codec st payload
  else if matchExec topic then handleGatewayCommandExecRequest codec st payload
  else if matchRaw topic then handleRawPacketForwarderCommand codec st payload
  else (st, none)

/-! ## Observable events of the stateful operations -/

/-- Observable events emitted by the backend's stateful operations: lock
operations on the backend's single `sync.RWMutex` (`Lock`/`Unlock` exclusive,
`RLock`/`RUnlock` shared), broker calls, fixed-backoff sleeps (seconds), a
connect attempt, a disconnect of the current handle, and a nested
`connectLoop` run triggered by `reconnectLoop`. -/
inductive Ev where
  | lockW
  | unlockW
  | lockR
  | unlockR
  | subscribeCall (g : Nat)
  | unsubscribeCall (g : Nat)
  | sleep (seconds : Nat)
  | connectAttempt
  | disconnectCall
  | connectLoopRun
  | publishCall (topic : String) (qos : Nat) (retained : Bool) (payload : List Nat)
deriving Repr, DecidableEq

/-- Number of broker subscribe calls in a trace (any gateway). -/
def subCallCount (tr : List Ev) : Nat :=
  tr.countP fun e =>
    match e with
    | Ev.subscribeCall _ => true
    | _ => false

/-- Number of broker subscribe calls for one specific gateway identity. -/
def subCallCountFor (g : Nat) (tr : List Ev) : Nat :=
  tr.countP fun e => e == Ev.subscribeCall g

/-- Number of connect attempts in a trace. -/
def attemptCount (tr : List Ev) : Nat :=
  tr.countP fun e => e == Ev.connectAttempt

/-- Is the event a lock acquisition or release? -/
def isLockEv : Ev → Bool
  | Ev.lockW => true
  | Ev.unlockW => true
  | Ev.lockR => true
  | Ev.unlockR => true
  | _ => false

/-! ## Gateway subscription registry (`Backend.SetGatewaySubscription`) -/

/-- The retry loop inside `SetGatewaySubscription`: each iteration performs the
broker subscribe (resp. unsubscribe) call for the gateway's command topic; on
error it sleeps 1 second and retries; on success it inserts (resp. removes) the
registry entry and breaks.  `broker` lists the outcome of each successive
broker call; an exhausted list means the loop is still retrying (`none`). -/
def subLoop (subscribe : Bool) (gatewayID : Nat) (gws : List Nat) :
    List Bool → List Ev × Option (List Nat × Option String)
  | [] => ([], none)
  | ok :: rest =>
    if subscribe then
      if ok then ([Ev.subscribeCall gatewayID], some (gws.insert gatewayID, none))
      else
        let r := subLoop subscribe gatewayID gws rest
        (Ev.subscribeCall gatewayID :: Ev.sleep 1 :: r.1, r.2)
    else
      if ok then ([Ev.unsubscribeCall gatewayID], some (gws.erase gatewayID, none))
      else
        let r := subLoop subscribe gatewayID gws rest
        (Ev.unsubscribeCall gatewayID :: Ev.sleep 1 :: r.1, r.2)

/-- `Backend.SetGatewaySubscription`: take the exclusive lock; if current
membership already equals `subscribe`, return `nil` at once; otherwise run the
retry loop; the deferred unlock fires on return.  Result: the event trace and,
when the operation returns, the new registry plus the returned Go error. -/
def SetGatewaySubscription (subscribe : Bool) (gatewayID : Nat) (gws : List Nat)
    (broker : List Bool) : List Ev × Option (List Nat × Option String) :=
  if gws.contains gatewayID == subscribe then
    ([Ev.lockW, Ev.unlockW], some (gws, none))
  else
    match subLoop subscribe gatewayID gws broker with
    | (tr, some r) => (Ev.lockW :: tr ++ [Ev.unlockW], some r)
    | (tr, none) => (Ev.lockW :: tr, none)

/-! ## Re-subscription after reconnect (`Backend.onConnected`) -/

/-- The inner per-gateway retry loop of `onConnected`: subscribe, and on error
sleep 1 second and retry.  Returns the trace, whether it succeeded within the
supplied outcomes, and the remaining outcomes. -/
def retrySub (g : Nat) : List Bool → List Ev × Bool × List Bool
  | [] => ([], false, [])
  | ok :: rest =>
    if ok then ([Ev.subscribeCall g], true, rest)
    else
      let r := retrySub g rest
      (Ev.subscribeCall g :: Ev.sleep 1 :: r.1, r.2)

/-- The `for gatewayID := range b.gateways` loop of `onConnected`. -/
def onConnectedLoop : List Nat → List Bool → List Ev × Bool × List Bool
  | [], broker => ([], true, broker)
  | g :: rest, broker =>
    let r := retrySub g broker
    if r.2.1 then
      let r2 := onConnectedLoop rest r.2.2
      (r.1 ++ r2.1, r2.2)
    else
      (r.1, false, r.2.2)

/-- `Backend.onConnected`: under the shared lock, re-subscribe every gateway
identity currently in the registry, retrying each until it succeeds; the
deferred read-unlock fires when the method returns. -/
def onConnected (gws : List Nat) (broker : List Bool) : List Ev × Bool × List Bool :=
  let r := onConnectedLoop gws broker
  if r.2.1 then (Ev.lockR :: r.1 ++ [Ev.unlockR], true, r.2.2)
  else (Ev.lockR :: r.1, false, r.2.2)

/-! ## Connect retry (`Backend.connect`, `Backend.connectLoop`) -/

/-- Events of one `Backend.connect()` call: it takes the exclusive lock,
refreshes credentials, replaces the client and issues the connect request,
then releases the lock. -/
def connectEvents : List Ev := [Ev.lockW, Ev.connectAttempt, Ev.unlockW]

/-- `Backend.connectLoop`: call `connect()`; on error, terminate the process if
`terminateOnConnectError` is set (`some false`), otherwise sleep 2 seconds and
retry; on success return (`some true`).  `outcomes` lists the result of each
successive `connect()` call; an exhausted list means the loop is still
retrying (`none`). -/
def connectLoop (terminateOnConnectError : Bool) : List Bool → List Ev × Option Bool
  | [] => ([], none)
  | ok :: rest =>
    if ok then (connectEvents, some true)
    else if terminateOnConnectError then (connectEvents, some false)
    else
      let r := connectLoop terminateOnConnectError rest
      (connectEvents ++ Ev.sleep 2 :: r.1, r.2)

/-! ## Disconnect, Stop, reconnectLoop -/

/-- Events of one `Backend.disconnect()` call: exclusive lock, disconnect the
handle (250 ms linger), unlock. -/
def disconnectEvents : List Ev := [Ev.lockW, Ev.disconnectCall, Ev.unlockW]

/-- `Backend.Stop`: set the `closed` flag under the exclusive lock, release the
lock, then disconnect the live handle (outside the lock). -/
def Stop (st : BackendState) : BackendState × List Ev :=
  ({ st with closed := true }, [Ev.lockW, Ev.unlockW, Ev.disconnectCall])

/-- One full body iteration of `reconnectLoop` after a `closed` check that
observed `false`: sleep the rotation interval, force-disconnect, re-run
`connectLoop`. -/
def reconnectCycle (interval : Nat) : List Ev :=
  Ev.sleep interval :: disconnectEvents ++ [Ev.connectLoopRun]

/-- The `for` loop of `reconnectLoop`.  `closedChecks` lists the value the
`closed` flag has at each successive check (the check happens at the top of
the loop body, before the sleep); an exhausted list means the loop is still
running. -/
def reconnectLoopAux (interval : Nat) : List Bool → List Ev
  | [] => []
  | c :: rest =>
    if c then []
    else reconnectCycle interval ++ reconnectLoopAux interval rest

/-- `Backend.reconnectLoop`: only enters its loop when the authentication
strategy reports a positive mandatory rotation interval. -/
def reconnectLoop (interval : Nat) (closedChecks : List Bool) : List Ev :=
  if 0 < interval then reconnectLoopAux interval closedChecks else []

/-! ## Event publishing (`Backend.publish`, `Backend.PublishEvent`) -/

/-- `Backend.publish`: render the event topic (a template-execution error is
returned wrapped), marshal the message (a marshal error is returned wrapped),
then publish once at the backend's QoS with `retained = false`; a broker
publish error is returned unmodified, success returns `nil`.  The render,
marshal and broker outcomes are supplied as inputs.  Note: the source method
performs no lock operation. -/
def publish (renderResult : Except String String)
    (marshalResult : Except String (List Nat)) (qos : Nat)
    (brokerPublishErr : Option String) : List Ev × Option String :=
  match renderResult with
  | Except.error e => ([], some ("execute event template error: " ++ e))
  | Except.ok topic =>
    match marshalResult with
    | Except.error e => ([], some ("marshal message error: " ++ e))
    | Except.ok payload =>
      ([Ev.publishCall topic qos false payload],
        match brokerPublishErr with
        | some e => some e
        | none => none)

/-- `Backend.PublishEvent`: increments the per-event-kind counter, builds the
log fields, and delegates to `publish`, returning its result unchanged. -/
def PublishEvent (renderResult : Except String String)
    (marshalResult : Except String (List Nat)) (qos : Nat)
    (brokerPublishErr : Option String) : List Ev × Option String :=
  publish renderResult marshalResult qos brokerPublishErr

/-! ## Sample inputs used by the witnesses -/

/-- A codec on which every decode fails. -/
def noneCodec : Codec :=
  { unmarshalDownlink := fun _ => none
    unmarshalConfig := fun _ => none
    unmarshalExec := fun _ => none
    unmarshalRaw := fun _ => none }

/-- A legacy-shaped downlink frame: empty item list, legacy top-level payload
and transmit parameters present. -/
def legacyFrame : DownlinkFrame :=
  { phyPayload := [1, 2]
    txInfo := some { gatewayId := [9, 9, 9, 9, 9, 9, 9, 9] }
    items := []
    gatewayId := []
    downlinkId := [7] }

/-- A codec whose downlink decode always yields `legacyFrame`. -/
def legacyCodec : Codec :=
  { unmarshalDownlink := fun _ => some legacyFrame
    unmarshalConfig := fun _ => none
    unmarshalExec := fun _ => none
    unmarshalRaw := fun _ => none }

/-- A backend state with every handler registered. -/
def regState : BackendState :=
  { connId := 0
    gateways := []
    closed := false
    downlinkFrameFunc := true
    gatewayConfigurationFunc := true
    gatewayCommandExecRequestFunc := true
    rawPacketForwarderCommandFunc := true }

/-! ## Helper lemmas -/

/-- Characterisation of `classify` by the four in-order matchers. -/
lemma classify_char (t : String) :
    (classify t = CommandKind.down ↔ matchDown t = true)
  ∧ (classify t = CommandKind.config ↔ (matchDown t = false ∧ matchConfig t = true))
  ∧ (classify t = CommandKind.exec
        ↔ (matchDown t = false ∧ matchConfig t = false ∧ matchExec t = true))
  ∧ (classify t = CommandKind.raw
        ↔ (matchDown t = false ∧ matchConfig t = false ∧ matchExec t = false
            ∧ matchRaw t = true))
  ∧ (classify t = CommandKind.unknown
        ↔ (matchDown t = false ∧ matchConfig t = false ∧ matchExec t = false
            ∧ matchRaw t = false)) := by
  unfold classify
  cases h1 : matchDown t <;> cases h2 : matchConfig t <;>
    cases h3 : matchExec t <;> cases h4 : matchRaw t <;> simp

/-! ## C1 -/

/-- C1 (amended): `handleCommand` classifies the topic by testing, in order,
Downlink, Config, Exec, Raw, accepting a topic that ends with the kind's path
suffix or contains the `command=` query substring; `classify "gw/1234/event/down"`
is Downlink; `classify "devices/gw-1234/commands/config"` is Config (the topic
ends with `"config"`, so the suffix check accepts it even though it does not
contain the substring `"command=config"`); `classify ".../command=raw"` is Raw;
an Unknown topic is dropped without invoking any handler and without touching
the backend state. -/
theorem classify_dispatch_correct (t : String) (codec : Codec) (st : BackendState)
    (payload : List Nat) :
    (classify t = CommandKind.down ↔ matchDown t = true)
  ∧ (classify t = CommandKind.config ↔ (matchDown t = false ∧ matchConfig t = true))
  ∧ (classify t = CommandKind.exec
        ↔ (matchDown t = false ∧ matchConfig t = false ∧ matchExec t = true))
  ∧ (classify t = CommandKind.raw
        ↔ (matchDown t = false ∧ matchConfig t = false ∧ matchExec t = false
            ∧ matchRaw t = true))
  ∧ (classify t = CommandKind.unknown
        ↔ (matchDown t = false ∧ matchConfig t = false ∧ matchExec t = false
            ∧ matchRaw t = false))
  ∧ classify "gw/1234/event/down" = CommandKind.down
  ∧ classify "devices/gw-1234/commands/config" = CommandKind.config
  ∧ classify ".../command=raw" = CommandKind.raw
  ∧ (classify t = CommandKind.unknown →
        handleCommand codec st t payload = (st, none)) := by
  obtain ⟨h1, h2, h3, h4, h5⟩ := classify_char t
  refine ⟨h1, h2, h3, h4, h5, by decide, by decide, by decide, ?_⟩
  intro h
  obtain ⟨m1, m2, m3, m4⟩ := h5.mp h
  unfold handleCommand
  simp [m1, m2, m3, m4]

/-- C1 witness: the unknown-topic branch of `classify_dispatch_correct` at a
concrete topic, codec and state. -/
theorem classify_dispatch_correct_witness :
    handleCommand noneCodec regState "nope" [] = (regState, none) :=
  (classify_dispatch_correct "nope" noneCodec regState []).2.2.2.2.2.2.2.2
    (by decide)

/-- C1 counterexample: the topic `"devices/gw-1234/commands/config"` does not
contain the substring `"command=config"`, yet `classify` yields Config (the
suffix check on `"config"` accepts it), not Unknown as the claim states. -/
theorem classify_commands_config_counterexample :
    classify "devices/gw-1234/commands/config" = CommandKind.config
  ∧ goContains "devices/gw-1234/commands/config" "command=config" = false
  ∧ classify "devices/gw-1234/commands/config" ≠ CommandKind.unknown := by
  refine ⟨by decide, by decide, by decide⟩

/-! ## C2 -/

/-- C2: legacy downlink normalization.  For a decoded `DownlinkFrame` with an
empty item list: when the legacy top-level fields are present (`TxInfo` non-nil
and `PhyPayload` non-empty), `handleDownlinkFrame` hands the registered handler
the frame extended with exactly one item carrying that payload and those
transmit parameters, with the owning gateway identity set from the synthesized
item's transmit parameters; when the legacy fields are not both present, the
message is dropped and the handler is not invoked. -/
theorem handleDownlinkFrame_legacy_normalization (codec : Codec) (st : BackendState)
    (payload : List Nat) (df : DownlinkFrame)
    (hdec : codec.unmarshalDownlink payload = some df)
    (hreg : st.downlinkFrameFunc = true)
    (hempty : df.items = []) :
    (df.txInfo.isSome = true → df.phyPayload ≠ [] →
        handleDownlinkFrame codec st payload =
          (st, some (HandlerCall.downlink
            { df with
              items := [{ phyPayload := df.phyPayload, txInfo := df.txInfo }]
              gatewayId := getGatewayIdOpt df.txInfo })))
  ∧ (¬(df.txInfo.isSome = true ∧ df.phyPayload ≠ []) →
        handleDownlinkFrame codec st payload = (st, none)) := by
  constructor
  · intro hsome hpp
    have hppb : df.phyPayload.isEmpty = false := by
      simpa [List.isEmpty_iff] using hpp
    unfold handleDownlinkFrame
    rw [hdec]
    unfold downlinkAfterDecode normalizeDownlinkFrame
    simp [hempty, hsome, hppb, hreg]
  · intro hnot
    unfold handleDownlinkFrame
    rw [hdec]
    unfold downlinkAfterDecode normalizeDownlinkFrame
    rcases Decidable.not_and_iff_or_not.mp hnot with hs | hp
    · simp [hempty, Bool.eq_false_iff.mpr hs]
    · have hpe : df.phyPayload = [] := Decidable.not_not.mp hp
      simp [hempty, hpe]

/-- C2 witness: `handleDownlinkFrame_legacy_normalization` applied to a
concrete legacy frame, codec and state. -/
theorem handleDownlinkFrame_legacy_normalization_witness :
    handleDownlinkFrame legacyCodec regState [0] =
      (regState, some (HandlerCall.downlink
        { legacyFrame with
          items := [{ phyPayload := legacyFrame.phyPayload, txInfo := legacyFrame.txInfo }]
          gatewayId := getGatewayIdOpt legacyFrame.txInfo })) :=
  (handleDownlinkFrame_legacy_normalization legacyCodec regState [0] legacyFrame
    rfl rfl rfl).1 rfl (by decide)

/-! ## C3 -/

/-- C3: subscription idempotence.  If the registry's membership of the gateway
already equals the requested value, `SetGatewaySubscription` returns `nil`
immediately, issuing no broker call and leaving the registry unchanged (the
trace holds only the lock/unlock pair); consequently, starting from an
unsubscribed gateway, two consecutive `SetGatewaySubscription(true, g)` calls
with a succeeding broker perform exactly one broker subscribe call in total:
one in the first call and zero in the second. -/
theorem SetGatewaySubscription_idempotent (subscribe : Bool) (g : Nat)
    (gws : List Nat) (broker broker2 : List Bool) :
    (gws.contains g = subscribe →
        SetGatewaySubscription subscribe g gws broker
          = ([Ev.lockW, Ev.unlockW], some (gws, none)))
  ∧ (gws.contains g = false →
        subCallCount (SetGatewaySubscription true g gws [true]).1 = 1
      ∧ ∃ st1, (SetGatewaySubscription true g gws [true]).2 = some (st1, none)
          ∧ subCallCount (SetGatewaySubscription true g st1 broker2).1 = 0) := by
  constructor
  · intro h
    have hb : (gws.contains g == subscribe) = true := by
      rw [h]; exact beq_self_eq_true subscribe
    unfold SetGatewaySubscription
    rw [if_pos hb]
  · intro h
    have hnm : g ∉ gws := by
      intro hmem
      have hct : gws.contains g = true := List.elem_iff.mpr hmem
      rw [hct] at h
      exact Bool.noConfusion h
    have hins : gws.insert g = g :: gws := List.insert_of_not_mem hnm
    have hsl : subLoop true g gws [true]
        = ([Ev.subscribeCall g], some (gws.insert g, none)) := rfl
    have hfirst : SetGatewaySubscription true g gws [true]
        = ([Ev.lockW, Ev.subscribeCall g, Ev.unlockW], some (g :: gws, none)) := by
      unfold SetGatewaySubscription
      rw [if_neg (by simp [hnm])]
      rw [hsl, hins]
      rfl
    refine ⟨by rw [hfirst]; rfl, g :: gws, by rw [hfirst], ?_⟩
    have hc2 : ((g :: gws).contains g == true) = true := by simp
    have hsecond : SetGatewaySubscription true g (g :: gws) broker2
        = ([Ev.lockW, Ev.unlockW], some (g :: gws, none)) := by
      unfold SetGatewaySubscription
      rw [if_pos hc2]
    rw [hsecond]
    rfl

/-- C3 witness: `SetGatewaySubscription_idempotent` applied at concrete
inputs, both for the no-op branch and for the one-subscribe-call scenario. -/
theorem SetGatewaySubscription_idempotent_witness :
    SetGatewaySubscription false 1 [] [true] = ([Ev.lockW, Ev.unlockW], some ([], none))
  ∧ subCallCount (SetGatewaySubscription true 1 [] [true]).1 = 1 := by
  constructor
  · exact (SetGatewaySubscription_idempotent false 1 [] [true] []).1 (by decide)
  · exact ((SetGatewaySubscription_idempotent false 1 [] [true] []).2 (by decide)).1

/-! ## C10 -/

/-- Whenever the retry loop of `SetGatewaySubscription` returns, the returned
Go error is `nil`: broker failures only cause another retry iteration. -/
lemma subLoop_returns_nil :
    ∀ (broker : List Bool) (subscribe : Bool) (g : Nat) (gws st : List Nat)
      (e : Option String),
      (subLoop subscribe g gws broker).2 = some (st, e) → e = none := by
  intro broker
  induction broker with
  | nil =>
    intro subscribe g gws st e h
    simp [subLoop] at h
  | cons ok rest ih =>
    intro subscribe g gws st e h
    cases subscribe <;> cases ok <;> simp [subLoop] at h
    · exact ih false g gws st e h
    · exact h.2.symm
    · exact ih true g gws st e h
    · exact h.2.symm

/-- C10: despite its `error` return type, `SetGatewaySubscription` never
surfaces an error to the caller: whenever it returns, the returned error is
`nil` — every broker subscribe/unsubscribe failure is absorbed by the internal
retry loop, and the only other exit (the idempotent no-op) also returns `nil`. -/
theorem SetGatewaySubscription_returns_nil (subscribe : Bool) (g : Nat)
    (gws : List Nat) (broker : List Bool) (st : List Nat) (e : Option String)
    (h : (SetGatewaySubscription subscribe g gws broker).2 = some (st, e)) :
    e = none := by
  unfold SetGatewaySubscription at h
  by_cases hc : (gws.contains g == subscribe) = true
  · rw [if_pos hc] at h
    have h' : (some (gws, (none : Option String))) = some (st, e) := h
    have h2 : gws = st ∧ (none : Option String) = e := by simpa using h'
    exact h2.2.symm
  · rw [if_neg hc] at h
    rcases hq : subLoop subscribe g gws broker with ⟨tr, ro⟩
    rw [hq] at h
    cases ro with
    | none => simp at h
    | some r =>
      have h' : (some r : Option (List Nat × Option String)) = some (st, e) := h
      have hr : r = (st, e) := by simpa using h'
      exact subLoop_returns_nil broker subscribe g gws st e (by rw [hq, hr])

/-- C10 witness: `SetGatewaySubscription_returns_nil` at a concrete run that
returns, with its hypothesis discharged by computation. -/
theorem SetGatewaySubscription_returns_nil_witness :
    (SetGatewaySubscription true 1 [] [true]).2 = some ([1], none)
  ∧ (none : Option String) = none :=
  ⟨rfl, SetGatewaySubscription_returns_nil true 1 [] [true] [1] none rfl⟩

/-! ## C4 -/

/-- The per-gateway retry loop of `onConnected` after `n` broker failures
followed by a success: one subscribe call per attempt, a 1-second sleep after
each failure, then success. -/
lemma retrySub_after_failures (g : Nat) :
    ∀ (n : Nat) (rest : List Bool),
      retrySub g (List.replicate n false ++ true :: rest)
        = ((List.replicate n [Ev.subscribeCall g, Ev.sleep 1]).flatten
            ++ [Ev.subscribeCall g], true, rest) := by
  intro n
  induction n with
  | zero => intro rest; rfl
  | succ k ih =>
    intro rest
    rw [List.replicate_succ, List.cons_append]
    show (Ev.subscribeCall g :: Ev.sleep 1
        :: (retrySub g (List.replicate k false ++ true :: rest)).1,
      (retrySub g (List.replicate k false ++ true :: rest)).2) = _
    rw [ih rest]
    simp [List.replicate_succ]

/-- On an always-succeeding broker, the registry loop of `onConnected` issues
exactly one subscribe call per registry entry, in order. -/
lemma onConnectedLoop_all_true :
    ∀ gws : List Nat,
      onConnectedLoop gws (List.replicate gws.length true)
        = (gws.map Ev.subscribeCall, true, []) := by
  intro gws
  induction gws with
  | nil => rfl
  | cons g rest ih =>
    show onConnectedLoop (g :: rest) (List.replicate (rest.length + 1) true) = _
    rw [List.replicate_succ]
    show (let r := retrySub g (true :: List.replicate rest.length true)
      if r.2.1 then
        let r2 := onConnectedLoop rest r.2.2
        (r.1 ++ r2.1, r2.2)
      else (r.1, false, r.2.2)) = _
    have hr : retrySub g (true :: List.replicate rest.length true)
        = ([Ev.subscribeCall g], true, List.replicate rest.length true) := rfl
    rw [hr]
    simp [ih]

/-- C4: re-subscription after reconnect.  `onConnected` takes the shared lock
and iterates exactly the gateway identities in the registry at that moment:
with an always-succeeding broker its trace is one subscribe call per registry
entry in order; a subscribe that fails `n` times is retried with a 1-second
sleep after each failure until it succeeds; and with registry `[g1, g2]`
(distinct identities) and a succeeding broker, exactly two subscribe calls
occur, one per identity. -/
theorem onConnected_resubscribes_registry (gws : List Nat) (g g1 g2 n : Nat) :
    (onConnected gws (List.replicate gws.length true)
        = (Ev.lockR :: gws.map Ev.subscribeCall ++ [Ev.unlockR], true, []))
  ∧ (retrySub g (List.replicate n false ++ [true])
        = ((List.replicate n [Ev.subscribeCall g, Ev.sleep 1]).flatten
            ++ [Ev.subscribeCall g], true, []))
  ∧ (g1 ≠ g2 →
        subCallCountFor g1 (onConnected [g1, g2] [true, true]).1 = 1
      ∧ subCallCountFor g2 (onConnected [g1, g2] [true, true]).1 = 1
      ∧ subCallCount (onConnected [g1, g2] [true, true]).1 = 2) := by
  have htrace : ∀ l : List Nat,
      onConnected l (List.replicate l.length true)
        = (Ev.lockR :: l.map Ev.subscribeCall ++ [Ev.unlockR], true, []) := by
    intro l
    unfold onConnected
    rw [onConnectedLoop_all_true l]
    rfl
  refine ⟨htrace gws, retrySub_after_failures g n [], ?_⟩
  intro hne
  have h2 : onConnected [g1, g2] [true, true]
      = (Ev.lockR :: [g1, g2].map Ev.subscribeCall ++ [Ev.unlockR], true, []) :=
    htrace [g1, g2]
  rw [h2]
  refine ⟨?_, ?_, ?_⟩
  · simp [subCallCountFor, List.countP_cons, hne, Ne.symm hne]
  · simp [subCallCountFor, List.countP_cons, hne, Ne.symm hne]
  · simp [subCallCount, List.countP_cons]

/-- C4 witness: `onConnected_resubscribes_registry` at registry `[1, 2]`. -/
theorem onConnected_resubscribes_registry_witness :
    subCallCountFor 1 (onConnected [1, 2] [true, true]).1 = 1
  ∧ subCallCountFor 2 (onConnected [1, 2] [true, true]).1 = 1
  ∧ subCallCount (onConnected [1, 2] [true, true]).1 = 2 :=
  (onConnected_resubscribes_registry [] 0 1 2 0).2.2 (by decide)

/-! ## C5 -/

/-- `connectLoop` in fail-fast-disabled mode, with `n` failures followed by a
success: one connect call per attempt, a 2-second sleep after each failure,
returning right after the successful attempt. -/
lemma connectLoop_after_failures :
    ∀ n : Nat,
      connectLoop false (List.replicate n false ++ [true])
        = ((List.replicate n (connectEvents ++ [Ev.sleep 2])).flatten
            ++ connectEvents, some true) := by
  intro n
  induction n with
  | zero => rfl
  | succ k ih =>
    rw [List.replicate_succ, List.cons_append]
    show (connectEvents ++ Ev.sleep 2
        :: (connectLoop false (List.replicate k false ++ [true])).1,
      (connectLoop false (List.replicate k false ++ [true])).2) = _
    rw [ih]
    simp [List.replicate_succ]

/-- `connectLoop` in fail-fast-disabled mode never returns while every attempt
fails: on `n` failures the loop has made `n` attempts and is still retrying. -/
lemma connectLoop_all_failures :
    ∀ n : Nat,
      connectLoop false (List.replicate n false)
        = ((List.replicate n (connectEvents ++ [Ev.sleep 2])).flatten, none) := by
  intro n
  induction n with
  | zero => rfl
  | succ k ih =>
    rw [List.replicate_succ]
    show (connectEvents ++ Ev.sleep 2
        :: (connectLoop false (List.replicate k false)).1,
      (connectLoop false (List.replicate k false)).2) = _
    rw [ih]
    simp [List.replicate_succ]

/-- C5: connect retry.  In fail-fast-disabled mode `connectLoop` calls
`connect` once per outcome, sleeping 2 seconds after each failure, and returns
exactly when an attempt succeeds (with all-failing outcomes it is still
retrying and has returned nothing); for a connect function that fails exactly
twice then succeeds it makes exactly three attempts, with the 2-second backoff
between consecutive attempts visible in the trace, and returns after the
third. -/
theorem connectLoop_retry (n : Nat) :
    (connectLoop false (List.replicate n false ++ [true])
        = ((List.replicate n (connectEvents ++ [Ev.sleep 2])).flatten
            ++ connectEvents, some true))
  ∧ (connectLoop false (List.replicate n false)
        = ((List.replicate n (connectEvents ++ [Ev.sleep 2])).flatten, none))
  ∧ (connectLoop false [false, false, true]
        = (connectEvents ++ Ev.sleep 2 :: connectEvents
            ++ Ev.sleep 2 :: connectEvents, some true))
  ∧ attemptCount (connectLoop false [false, false, true]).1 = 3 := by
  refine ⟨connectLoop_after_failures n, connectLoop_all_failures n, by decide, by decide⟩

/-! ## C6 -/

/-- C6 (amended): event publish semantics.  When topic rendering and encoding
succeed, `publish` performs exactly one broker publish, at the backend's fixed
QoS with the retained flag `false`, and returns the broker publish outcome to
the caller unmodified (the error itself on failure, `nil` on success) without
retrying; a topic-rendering or encoding error short-circuits with no publish
call and is returned wrapped with a context message (not unmodified);
`PublishEvent` returns exactly what `publish` returns. -/
theorem publish_event_semantics (r : Except String String)
    (m : Except String (List Nat)) (q : Nat) (be : Option String)
    (t : String) (bs : List Nat) (e : String) :
    (r = Except.ok t → m = Except.ok bs →
        publish r m q be = ([Ev.publishCall t q false bs], be))
  ∧ (r = Except.error e →
        publish r m q be = ([], some ("execute event template error: " ++ e)))
  ∧ (r = Except.ok t → m = Except.error e →
        publish r m q be = ([], some ("marshal message error: " ++ e)))
  ∧ PublishEvent r m q be = publish r m q be := by
  refine ⟨?_, ?_, ?_, rfl⟩
  · intro hr hm
    subst hr; subst hm
    unfold publish
    cases be <;> rfl
  · intro hr
    subst hr
    rfl
  · intro hr hm
    subst hr; subst hm
    rfl

/-- C6 witness: `publish_event_semantics` at a failing broker publish: the
broker error is returned to the caller unmodified. -/
theorem publish_event_semantics_witness :
    publish (Except.ok "topic") (Except.ok [1, 2]) 1 (some "pubfail")
      = ([Ev.publishCall "topic" 1 false [1, 2]], some "pubfail") :=
  (publish_event_semantics (Except.ok "topic") (Except.ok [1, 2]) 1
    (some "pubfail") "topic" [1, 2] "x").1 rfl rfl

/-- C6 counterexample: a topic-rendering error is not returned unmodified —
the source wraps it (`errors.Wrap(err, "execute event template error")`), so
the caller receives a different error value than the underlying one. -/
theorem publish_wraps_render_error :
    (publish (Except.error "boom") (Except.ok []) 0 none).2
      = some ("execute event template error: " ++ "boom")
  ∧ ("execute event template error: " ++ "boom" : String) ≠ "boom" := by
  exact ⟨rfl, by decide⟩

/-! ## C7 -/

/-- C7: decode failures are message-local.  For every inbound topic whose
payload fails to decode into the classified kind's message, `handleCommand`
invokes no handler and leaves the backend state (connection handle,
subscription registry, closed flag, registered handlers) untouched. -/
theorem decode_failure_message_local (codec : Codec) (st : BackendState)
    (topic : String) (payload : List Nat) :
    (classify topic = CommandKind.down → codec.unmarshalDownlink payload = none →
        handleCommand codec st topic payload = (st, none))
  ∧ (classify topic = CommandKind.config → codec.unmarshalConfig payload = none →
        handleCommand codec st topic payload = (st, none))
  ∧ (classify topic = CommandKind.exec → codec.unmarshalExec payload = none →
        handleCommand codec st topic payload = (st, none))
  ∧ (classify topic = CommandKind.raw → codec.unmarshalRaw payload = none →
        handleCommand codec st topic payload = (st, none)) := by
  obtain ⟨h1, h2, h3, h4, _⟩ := classify_char topic
  refine ⟨?_, ?_, ?_, ?_⟩
  · intro hk hdec
    have hm := h1.mp hk
    unfold handleCommand
    simp [hm, handleDownlinkFrame, hdec]
  · intro hk hdec
    obtain ⟨m1, m2⟩ := h2.mp hk
    unfold handleCommand
    simp [m1, m2, handleGatewayConfiguration, hdec]
  · intro hk hdec
    obtain ⟨m1, m2, m3⟩ := h3.mp hk
    unfold handleCommand
    simp [m1, m2, m3, handleGatewayCommandExecRequest, hdec]
  · intro hk hdec
    obtain ⟨m1, m2, m3, m4⟩ := h4.mp hk
    unfold handleCommand
    simp [m1, m2, m3, m4, handleRawPacketForwarderCommand, hdec]

/-- C7 witness: `decode_failure_message_local` at a downlink topic with a
codec on which the decode fails. -/
theorem decode_failure_message_local_witness :
    handleCommand noneCodec regState "gw/1/down" [] = (regState, none) :=
  (decode_failure_message_local noneCodec regState "gw/1/down" []).1
    (by decide) rfl

/-! ## C8 -/

/-- `reconnectLoop` performs one forced disconnect/reconnect cycle per closed
check that observed `false`, and exits at the first check that observes
`true`, ignoring everything after it. -/
lemma reconnectLoopAux_cycles (interval : Nat) :
    ∀ (k : Nat) (rest : List Bool),
      reconnectLoopAux interval (List.replicate k false ++ true :: rest)
        = (List.replicate k (reconnectCycle interval)).flatten := by
  intro k
  induction k with
  | zero => intro rest; rfl
  | succ j ih =>
    intro rest
    rw [List.replicate_succ, List.cons_append]
    show reconnectCycle interval
        ++ reconnectLoopAux interval (List.replicate j false ++ true :: rest) = _
    rw [ih rest]
    simp [List.replicate_succ]

/-- C8 (amended): shutdown of the forced-reconnect loop.  `Stop` marks the
manager closed; `reconnectLoop` checks the closed flag at the top of each
iteration, before the rotation-interval sleep, so it exits at the first check
that observes the flag and performs exactly one forced disconnect/reconnect
cycle per check that observed `false` — a stop that lands during a sleep
therefore lets the already-started cycle complete one more forced
disconnect/reconnect after that wake before the loop exits.  If the rotation
interval is zero, `reconnectLoop` never disconnects or reconnects. -/
theorem reconnectLoop_stop_behavior (interval k : Nat) (rest sched : List Bool)
    (st : BackendState) :
    ((Stop st).1.closed = true)
  ∧ (0 < interval →
        reconnectLoop interval (List.replicate k false ++ true :: rest)
          = (List.replicate k (reconnectCycle interval)).flatten)
  ∧ reconnectLoop 0 sched = [] := by
  refine ⟨rfl, ?_, rfl⟩
  intro hpos
  unfold reconnectLoop
  rw [if_pos hpos]
  exact reconnectLoopAux_cycles interval k rest

/-- C8 witness: `reconnectLoop_stop_behavior` at interval 1 with one
`false` check before the stop is observed. -/
theorem reconnectLoop_stop_behavior_witness :
    reconnectLoop 1 (List.replicate 1 false ++ true :: [])
      = (List.replicate 1 (reconnectCycle 1)).flatten :=
  (reconnectLoop_stop_behavior 1 1 [] [] regState).2.1 (by decide)

/-- C8 counterexample: with rotation interval 1 and the closed flag set during
the first sleep (first check observes `false`, next check observes `true`),
the loop still performs a forced disconnect and reconnect after waking from
that sleep — the claim that no further forced disconnect/reconnect happens
after the next wake fails on the code, because the closed check precedes the
sleep. -/
theorem reconnectLoop_cycle_after_stop :
    reconnectLoop 1 [false, true]
      = [Ev.sleep 1, Ev.lockW, Ev.disconnectCall, Ev.unlockW, Ev.connectLoopRun]
  ∧ (reconnectLoop 1 [false, true]).contains Ev.disconnectCall = true := by
  exact ⟨rfl, rfl⟩

/-! ## C9 -/

/-- C9 (amended): lock usage of the backend's operations.  Subscription
mutations run under the exclusive lock for their whole duration
(`SetGatewaySubscription`'s trace starts with the write-lock acquisition and,
whenever the call returns, ends with the write-unlock); the `onConnected`
re-subscription pass runs under the shared lock; `connect` and `disconnect`
take the exclusive lock; `Stop` writes the closed flag under the exclusive
lock but disconnects the handle after releasing it; and `publish` performs no
lock operation at all — its reads of the connection handle and QoS are not
lock-protected, contrary to the claimed discipline. -/
theorem lock_discipline (subscribe : Bool) (g : Nat) (gws gws2 : List Nat)
    (broker broker2 : List Bool) (r : Except String String)
    (m : Except String (List Nat)) (q : Nat) (be : Option String)
    (st : BackendState) :
    ((SetGatewaySubscription subscribe g gws broker).1.head? = some Ev.lockW)
  ∧ (∀ res, (SetGatewaySubscription subscribe g gws broker).2 = some res →
        (SetGatewaySubscription subscribe g gws broker).1.getLast? = some Ev.unlockW)
  ∧ ((onConnected gws2 broker2).1.head? = some Ev.lockR)
  ∧ ((onConnected gws2 broker2).2.1 = true →
        (onConnected gws2 broker2).1.getLast? = some Ev.unlockR)
  ∧ connectEvents = [Ev.lockW, Ev.connectAttempt, Ev.unlockW]
  ∧ disconnectEvents = [Ev.lockW, Ev.disconnectCall, Ev.unlockW]
  ∧ (Stop st).2 = [Ev.lockW, Ev.unlockW, Ev.disconnectCall]
  ∧ (publish r m q be).1.countP isLockEv = 0 := by
  refine ⟨?_, ?_, ?_, ?_, rfl, rfl, rfl, ?_⟩
  · unfold SetGatewaySubscription
    by_cases hc : (gws.contains g == subscribe) = true
    · rw [if_pos hc]
      rfl
    · rw [if_neg hc]
      rcases hq : subLoop subscribe g gws broker with ⟨tr, ro⟩
      cases ro <;> rfl
  · intro res hres
    unfold SetGatewaySubscription at hres ⊢
    by_cases hc : (gws.contains g == subscribe) = true
    · rw [if_pos hc]
      rfl
    · rw [if_neg hc] at hres ⊢
      rcases hq : subLoop subscribe g gws broker with ⟨tr, ro⟩
      cases ro with
      | none =>
        rw [hq] at hres
        simp at hres
      | some rr =>
        show ((Ev.lockW :: tr) ++ [Ev.unlockW]).getLast? = some Ev.unlockW
        exact List.getLast?_concat _
  · unfold onConnected
    rcases hq : onConnectedLoop gws2 broker2 with ⟨tr, ok, rem⟩
    cases ok <;> rfl
  · intro hok
    unfold onConnected at hok ⊢
    rcases hq : onConnectedLoop gws2 broker2 with ⟨tr, ok, rem⟩
    cases ok with
    | false =>
      rw [hq] at hok
      simp at hok
    | true =>
      show ((Ev.lockR :: tr) ++ [Ev.unlockR]).getLast? = some Ev.unlockR
      exact List.getLast?_concat _
  · unfold publish
    cases r with
    | error e => rfl
    | ok t =>
      cases m with
      | error e => rfl
      | ok bs => rfl

/-- C9 witness: `lock_discipline` with its two conditional conjuncts
discharged at concrete inputs. -/
theorem lock_discipline_witness :
    (SetGatewaySubscription true 1 [] [true]).1.getLast? = some Ev.unlockW
  ∧ (onConnected [] []).1.getLast? = some Ev.unlockR := by
  constructor
  · exact (lock_discipline true 1 [] [] [true] [] (Except.ok "") (Except.ok [])
      0 none regState).2.1 ([1], none) rfl
  · exact (lock_discipline true 1 [] [] [true] [] (Except.ok "") (Except.ok [])
      0 none regState).2.2.2.1 rfl

/-- C9 counterexample: `publish` acquires no lock at all — its trace at a
concrete successful publish is the single broker publish call, with zero lock
events — refuting the claim that publish takes the shared/read mode of the
backend's reader/writer lock. -/
theorem publish_takes_no_lock :
    (publish (Except.ok "t") (Except.ok [1]) 0 none).1
      = [Ev.publishCall "t" 0 false [1]]
  ∧ (publish (Except.ok "t") (Except.ok [1]) 0 none).1.countP isLockEv = 0 := by
  exact ⟨rfl, rfl⟩

end ChirpStackMqtt
